import Mathlib

/-!
Shallow embedding of the OSM-response-to-GeoJSON core of src/app.py
(the functions build_streets_overpass_query, create_geometry,
osm_to_geojson, validate_geojson, and the validation tail of
generate_geojson_concurrent), together with theorems settling the
specification claims about it.

Coordinates are modelled as pairs of rationals: the source compares
coordinates only for equality and copies them; it never computes with
them.  The external computational-geometry primitives (unary_union,
make_valid, shapely.geometry.shape) are not code of this repository;
they are modelled as an explicit backend parameter (UnionFn)
respectively a structural check (shape_ok) reflecting the documented
behaviour of the library.
-/

namespace StreetFetcher

/-- A coordinate pair (lon, lat) as produced by line 122 of app.py. -/
abbrev Coord := ℚ × ℚ

/-- One entry of the geometry array of a way: a node record with lat/lon
fields (Overpass out-geom format). -/
structure GeomNode where
  lat : ℚ
  lon : ℚ
  deriving DecidableEq, Repr

/-- Models the comprehension on lines 122 and 133: each node becomes the
pair (node.lon, node.lat). -/
def coordsOf (g : List GeomNode) : List Coord :=
  g.map (fun n => (n.lon, n.lat))

/-- A relation member record with fields type, ref and role. -/
structure Member where
  type : String
  ref : Int
  role : String
  deriving DecidableEq, Repr

/-- A raw Overpass element.  The source represents elements as dicts with
a type discriminator; the geometry field is consulted only for ways, the
members field only for relations (with default empty list, line 131), and
tags with default empty dict (line 166). -/
structure RawElement where
  type : String
  id : Int
  geometry : List GeomNode := []
  members : List Member := []
  tags : List (String × String) := []
  deriving DecidableEq, Repr

/-- GeoJSON geometry as produced by create_geometry: a tagged union over
LineString / Polygon / MultiPolygon. -/
inductive Geometry where
  | lineString (coords : List Coord)
  | polygon (rings : List (List Coord))
  | multiPolygon (polygons : List (List (List Coord)))
  deriving DecidableEq, Repr

/-- The properties dict of a produced Feature (lines 165-170): name,
osm_id, osm_type, and a duplicated copy of the geometry. -/
structure Properties where
  name : String
  osm_id : Int
  osm_type : String
  geometry : Geometry
  deriving DecidableEq, Repr

/-- A GeoJSON Feature (lines 163-172). -/
structure Feature where
  properties : Properties
  geometry : Geometry
  deriving DecidableEq, Repr

/-- The output FeatureCollection (line 174). -/
structure FeatureCollection where
  type : String
  features : List Feature
  deriving DecidableEq, Repr

/-- The place descriptor returned by the Nominatim lookup: the fields of
the record that build_streets_overpass_query reads. -/
structure PlaceDescriptor where
  osm_id : Int
  osm_type : String
  display_name : String
  deriving DecidableEq, Repr

/-- A single-quote character, as it occurs inside the Overpass query
literal on line 118 of the source. -/
def sq : String := String.singleton (Char.ofNat 39)

/-- Models line 117: the area id is the numeric osm_id offset by
3600000000 when the osm_type is relation, and the osm_id unchanged
otherwise. -/
def streets_area_id (location : PlaceDescriptor) : Int :=
  if location.osm_type = "relation" then location.osm_id + 3600000000
  else location.osm_id

/-- Models build_streets_overpass_query (lines 116-118): the query
f-string with the area id interpolated in decimal notation. -/
def build_streets_overpass_query (location : PlaceDescriptor) : String :=
  "[out:json];area(" ++ toString (streets_area_id location) ++
    ")->.searchArea;(way[" ++ sq ++ "highway" ++ sq ++ "][" ++ sq ++
    "highway" ++ sq ++ "!~" ++ sq ++
    "path|footway|cycleway|bridleway|steps|platform|construction" ++ sq ++
    "][" ++ sq ++ "area" ++ sq ++ "!~" ++ sq ++ "yes" ++ sq ++
    "](area.searchArea););out geom;"

/-- The way index of line 155 (a dict comprehension keyed by element id
over elements whose type is way), as a lookup function.  Python dict
semantics: on duplicate ids the later element wins, hence getLast?. -/
def buildWays (elements : List RawElement) : Int → Option RawElement :=
  fun ref => (elements.filter (fun e => e.type = "way" ∧ e.id = ref)).getLast?

/-- Models the double dict lookup with defaults on line 133: a missing
way id yields the empty node list. -/
def wayNodes (ways : Int → Option RawElement) (ref : Int) : List GeomNode :=
  ((ways ref).map RawElement.geometry).getD []

/-- Ring closure as performed by the Polygon constructor of the geometry
library (line 136): a coordinate sequence whose first entry differs from
its last is closed implicitly by appending the first entry. -/
def closeRing (cs : List Coord) : List Coord :=
  if cs.head? = cs.getLast? then cs else cs ++ cs.take 1

/-- Models lines 131-139: the list outer_ways of rings entering the
union.  A member contributes when its type is way, its role is outer, and
the resolved coordinate list has at least 4 entries; the contributed ring
is the implicitly closed sequence.  (With at least 4 well-typed
coordinate pairs the Polygon constructor of the library does not raise,
so the ValueError arm on lines 137-139 is not reachable in this model.) -/
def outer_rings (ways : Int → Option RawElement) (members : List Member) :
    List (List Coord) :=
  members.filterMap (fun m =>
    if m.type = "way" ∧ m.role = "outer" then
      let wc := coordsOf (wayNodes ways m.ref)
      if 4 ≤ wc.length then some (closeRing wc) else none
    else none)

/-- Outcome of make_valid applied to unary_union of the rings (lines
142-144) as the source observes it: a Polygon (carrying its exterior
coordinates), a MultiPolygon (carrying the exterior coordinates of each
component), some other geometry type (both isinstance checks fail), or an
exception raised inside the try block. -/
inductive UnionResult where
  | poly (exterior : List Coord)
  | multipoly (exteriors : List (List Coord))
  | other
  | failure
  deriving DecidableEq, Repr

/-- The external union/repair primitive, abstracted: the repository
delegates unary_union and make_valid to the geometry library
(spec sections 1 and 6), so the composite is a parameter here. -/
abbrev UnionFn := List (List Coord) → UnionResult

/-- Models create_geometry (lines 120-151).  Returns the optional
geometry together with the list of relation ids for which st.warning
fired (line 150); that warning list is the only side effect of the
function. -/
def create_geometry (element : RawElement) (ways : Int → Option RawElement)
    (streets_only : Bool) (u : UnionFn) : Option Geometry × List Int :=
  if element.type = "way" then
    let coords := coordsOf element.geometry
    if coords.length < 2 then (none, [])
    else if 4 ≤ coords.length ∧ coords.head? = coords.getLast? then
      (some (.polygon [coords]), [])
    else (some (.lineString coords), [])
  else if streets_only = false ∧ element.type = "relation" then
    let rings := outer_rings ways element.members
    if rings.isEmpty then (none, [])
    else
      match u rings with
      | .poly ext => (some (.polygon [ext]), [])
      | .multipoly exts => (some (.multiPolygon (exts.map (fun e => [e]))), [])
      | .other => (none, [])
      | .failure => (none, [element.id])
  else (none, [])

/-- Models the tag lookup with defaults on line 166: the name tag, or
Unknown when absent. -/
def nameOf (tags : List (String × String)) : String :=
  (List.lookup "name" tags).getD "Unknown"

/-- The Feature built for an element whose geometry assembled (lines
163-172): the geometry is stored both inside properties and in the
canonical geometry slot. -/
def mkFeature (element : RawElement) (g : Geometry) : Feature :=
  { properties :=
      { name := nameOf element.tags
        osm_id := element.id
        osm_type := element.type
        geometry := g }
    geometry := g }

/-- Models osm_to_geojson (lines 153-174): index the ways, then per
element skip non-ways in streets mode, assemble a geometry, and wrap
successes into Features in input order. -/
def osm_to_geojson (elements : List RawElement) (streets_only : Bool)
    (u : UnionFn) : FeatureCollection :=
  let ways := buildWays elements
  let features := elements.filterMap (fun element =>
    if streets_only = true ∧ element.type ≠ "way" then none
    else
      match (create_geometry element ways streets_only u).1 with
      | some g => some (mkFeature element g)
      | none => none)
  { type := "FeatureCollection", features := features }

/-- Structural parse check applied by the external shape constructor
(line 179), per the documented constraints of the geometry library: every
polygon ring must be empty or have at least 4 positions after implicit
closure. -/
def ring_shape_ok (r : List Coord) : Bool :=
  r = [] ∨ 4 ≤ (closeRing r).length

/-- Whether the external shape constructor succeeds for one geometry
value: a LineString must not consist of exactly one position, and every
polygon ring must pass ring_shape_ok. -/
def shape_ok : Geometry → Bool
  | .lineString cs => cs.length ≠ 1
  | .polygon rings => rings.all ring_shape_ok
  | .multiPolygon ps => ps.all (fun rings => rings.all ring_shape_ok)

/-- Models validate_geojson (lines 176-183): shape every geometry of the
features; any failure makes the whole check return False. -/
def validate_geojson (geojson_data : FeatureCollection) : Bool :=
  geojson_data.features.all (fun f => shape_ok f.geometry)

/-- Models the non-streets tail of generate_geojson_concurrent (lines
259-265): assemble the combined elements, then return the collection only
if it validates, else None. -/
def generate_result (elements : List RawElement) (streets_only : Bool)
    (u : UnionFn) : Option FeatureCollection :=
  let geojson_data := osm_to_geojson elements streets_only u
  if validate_geojson geojson_data then some geojson_data else none

/-! Concrete fixtures used by counterexamples and witnesses. -/

/-- A union backend whose result is of some other geometry type; used
where the union step is never reached or its result is irrelevant. -/
def uZero : UnionFn := fun _ => .other

/-- A union backend behaving as the geometry library does on a singleton
list containing one valid ring: the union of one polygon is that polygon,
and repair leaves it unchanged. -/
def uSingle : UnionFn := fun rs =>
  match rs with
  | [r] => .poly r
  | _ => .other

/-- A union backend that always reports a fixed valid square ring. -/
def uFixed : UnionFn := fun _ => .poly [(0, 0), (1, 0), (1, 1), (0, 0)]

/-- A union backend that reports a degenerate three-position exterior,
which the shape check rejects. -/
def uBad : UnionFn := fun _ => .poly [(0, 0), (1, 1), (0, 0)]

/-- A closed way: 5 nodes tracing the unit square, first node equal to
the last. -/
def closedWay5 : RawElement :=
  { type := "way", id := 7,
    geometry := [⟨0, 0⟩, ⟨0, 1⟩, ⟨1, 1⟩, ⟨1, 0⟩, ⟨0, 0⟩] }

/-- An unclosed way of exactly 4 nodes (first coordinate differs from the
last). -/
def unclosedWay4 : RawElement :=
  { type := "way", id := 11,
    geometry := [⟨0, 0⟩, ⟨0, 1⟩, ⟨1, 1⟩, ⟨1, 0⟩] }

/-- A relation with a single outer way member referring to
unclosedWay4. -/
def relOuter : RawElement :=
  { type := "relation", id := 21, members := [⟨"way", 11, "outer"⟩] }

/-- A relation none of whose members yields a valid ring: one outer way
member whose id resolves to nothing, and one node member. -/
def relNoRings : RawElement :=
  { type := "relation", id := 31,
    members := [⟨"way", 99, "outer"⟩, ⟨"node", 1, "outer"⟩] }

/-- A way with a single node: fewer than 2 coordinate pairs. -/
def shortWay : RawElement :=
  { type := "way", id := 41, geometry := [⟨2, 3⟩] }

/-- A closed square way used as a valid outer ring of a relation. -/
def squareWay : RawElement :=
  { type := "way", id := 51,
    geometry := [⟨0, 0⟩, ⟨0, 1⟩, ⟨1, 1⟩, ⟨1, 0⟩, ⟨0, 0⟩] }

/-- A relation with squareWay as its single outer member. -/
def relSquare : RawElement :=
  { type := "relation", id := 52, members := [⟨"way", 51, "outer"⟩] }

/-- A member whose ref occurs in no way index used by the witnesses. -/
def ghostMember : Member := ⟨"way", 99, "outer"⟩

/-- The test descriptor of the end-to-end scenario: osm_id 123, osm_type
relation. -/
def testLoc : PlaceDescriptor :=
  { osm_id := 123, osm_type := "relation", display_name := "Testville" }

/-- A ring is valid when it has at least 4 coordinate pairs and its first
coordinate equals its last (spec section 3, Geometry invariant). -/
def ValidRing (r : List Coord) : Prop :=
  4 ≤ r.length ∧ r.head? = r.getLast?

/-- The contract of the external union/repair composite: every exterior
ring it reports is a valid closed ring.  This is the documented behaviour
of the geometry library, whose polygon exteriors are closed sequences of
at least 4 positions. -/
def ValidUnionFn (u : UnionFn) : Prop :=
  ∀ rs, (∀ ext, u rs = .poly ext → ValidRing ext) ∧
    (∀ exts, u rs = .multipoly exts → ∀ e ∈ exts, ValidRing e)

/-- Every ring of a Polygon or MultiPolygon geometry is valid; no
constraint on LineStrings. -/
def RingsValid : Geometry → Prop
  | .lineString _ => True
  | .polygon rings => ∀ r ∈ rings, ValidRing r
  | .multiPolygon ps => ∀ rings ∈ ps, ∀ r ∈ rings, ValidRing r

/-- C1 counterexample: a closed 5-node way processed in streets mode
(streets_only true) yields a Polygon, not a LineString, refuting the
claim that streets mode always produces a LineString: the way branch of
create_geometry (lines 121-128) never consults the streets_only flag. -/
theorem c1_counterexample :
    (create_geometry closedWay5 (fun _ => none) true uZero).1 =
      some (Geometry.polygon [[(0, 0), (1, 0), (1, 1), (0, 1), (0, 0)]]) := by
  decide

/-- C1 (amended): in streets mode the way branch behaves exactly as in
boundary mode — the streets_only flag does not alter way handling, so a
way whose coordinate sequence has at least 4 pairs with first equal to
last yields a Polygon even in streets mode, and a LineString results only
for an unclosed or shorter sequence of at least 2 pairs. -/
theorem c1_streets_way_classification (e : RawElement)
    (ways : Int → Option RawElement) (u : UnionFn) (h : e.type = "way") :
    create_geometry e ways true u = create_geometry e ways false u ∧
    (create_geometry e ways true u).1 =
      (if (coordsOf e.geometry).length < 2 then none
       else if 4 ≤ (coordsOf e.geometry).length ∧
           (coordsOf e.geometry).head? = (coordsOf e.geometry).getLast? then
         some (Geometry.polygon [coordsOf e.geometry])
       else some (Geometry.lineString (coordsOf e.geometry))) := by
  refine ⟨by simp only [create_geometry, h, if_pos], ?_⟩
  simp only [create_geometry, h, if_pos]
  split
  · rfl
  · split <;> rfl

/-- Witness for the amended C1 at the closed 5-node way. -/
theorem c1_witness :
    create_geometry closedWay5 (fun _ => none) true uZero =
      create_geometry closedWay5 (fun _ => none) false uZero :=
  (c1_streets_way_classification closedWay5 (fun _ => none) uZero rfl).1

/-- C2: a way with at least 4 coordinate pairs whose first coordinate
equals its last, assembled in non-streets mode, yields a Polygon with
exactly one ring equal to the input coordinate sequence. -/
theorem c2_closed_way_polygon (e : RawElement)
    (ways : Int → Option RawElement) (u : UnionFn) (h : e.type = "way")
    (h4 : 4 ≤ (coordsOf e.geometry).length)
    (hc : (coordsOf e.geometry).head? = (coordsOf e.geometry).getLast?) :
    (create_geometry e ways false u).1 =
      some (Geometry.polygon [coordsOf e.geometry]) := by
  have h2 : ¬ (coordsOf e.geometry).length < 2 := by omega
  simp [create_geometry, h, h2, h4, hc]

/-- Witness for C2: the 5-point closed square way in boundary mode yields
one Feature whose geometry is a Polygon whose single ring has length 5
with first coordinate equal to the last. -/
theorem c2_witness :
    (create_geometry closedWay5 (buildWays [closedWay5]) false uZero).1 =
      some (Geometry.polygon [[(0, 0), (1, 0), (1, 1), (0, 1), (0, 0)]]) ∧
    osm_to_geojson [closedWay5] false uZero =
      { type := "FeatureCollection",
        features := [mkFeature closedWay5
          (Geometry.polygon [[(0, 0), (1, 0), (1, 1), (0, 1), (0, 0)]])] } := by
  refine ⟨?_, by decide⟩
  exact c2_closed_way_polygon closedWay5 (buildWays [closedWay5]) uZero rfl
    (by decide) (by decide)

/-- C5: the streets query builder offsets the id by 3600000000 exactly
when the descriptor kind is relation, and the emitted query text embeds
that area id in decimal. -/
theorem c5_area_id_offset (loc : PlaceDescriptor) :
    (loc.osm_type = "relation" →
      streets_area_id loc = loc.osm_id + 3600000000) ∧
    (loc.osm_type ≠ "relation" → streets_area_id loc = loc.osm_id) ∧
    (∃ s t : List Char, (build_streets_overpass_query loc).data =
      s ++ (toString (streets_area_id loc)).data ++ t) := by
  refine ⟨fun h => by simp [streets_area_id, h],
    fun h => by simp [streets_area_id, h], ?_⟩
  refine ⟨"[out:json];area(".data,
    (")->.searchArea;(way[" ++ sq ++ "highway" ++ sq ++ "][" ++ sq ++
      "highway" ++ sq ++ "!~" ++ sq ++
      "path|footway|cycleway|bridleway|steps|platform|construction" ++ sq ++
      "][" ++ sq ++ "area" ++ sq ++ "!~" ++ sq ++ "yes" ++ sq ++
      "](area.searchArea););out geom;").data, ?_⟩
  simp [build_streets_overpass_query, String.data_append]

/-- Witness for C5: the descriptor with osm_id 123 and osm_type relation
gets area id 3600000123, and the emitted query contains that numeral. -/
theorem c5_witness :
    streets_area_id testLoc = 3600000123 ∧
    (∃ s t : List Char, (build_streets_overpass_query testLoc).data =
      s ++ "3600000123".data ++ t) := by
  have h := c5_area_id_offset testLoc
  refine ⟨(h.1 rfl).trans (by decide), ?_⟩
  have he : (toString (streets_area_id testLoc)).data =
      "3600000123".data := by decide
  exact he ▸ h.2.2

/-- C6: a way with fewer than 2 coordinate pairs yields no geometry in
either mode, and hence no Feature. -/
theorem c6_short_way_no_geometry (e : RawElement)
    (ways : Int → Option RawElement) (s : Bool) (u : UnionFn)
    (h : e.type = "way") (hlen : (coordsOf e.geometry).length < 2) :
    (create_geometry e ways s u).1 = none ∧
    osm_to_geojson [e] s u =
      { type := "FeatureCollection", features := [] } := by
  have h1 : ∀ w : Int → Option RawElement,
      (create_geometry e w s u).1 = none := by
    intro w
    simp [create_geometry, h, hlen]
  refine ⟨h1 ways, ?_⟩
  simp [osm_to_geojson, h, h1]

/-- Witness for C6 at the one-node way. -/
theorem c6_witness :
    (create_geometry shortWay (buildWays [shortWay]) true uZero).1 = none ∧
    osm_to_geojson [shortWay] true uZero =
      { type := "FeatureCollection", features := [] } :=
  c6_short_way_no_geometry shortWay (buildWays [shortWay]) true uZero rfl
    (by decide)

/-- C9: the assembler is deterministic — structurally equal raw inputs
produce structurally identical FeatureCollections (the embedded function
reads nothing but its arguments and builds its output afresh). -/
theorem c9_deterministic (elements₁ elements₂ : List RawElement) (s : Bool)
    (u : UnionFn) (h : elements₁ = elements₂) :
    osm_to_geojson elements₁ s u = osm_to_geojson elements₂ s u := by
  rw [h]

/-- Witness for C9 at a two-element input. -/
theorem c9_witness :
    osm_to_geojson [closedWay5, relSquare] false uSingle =
      osm_to_geojson [closedWay5, relSquare] false uSingle :=
  c9_deterministic [closedWay5, relSquare] [closedWay5, relSquare] false
    uSingle rfl

/-- C3 counterexample: an outer way member of exactly 4 coordinate pairs
whose first coordinate differs from its last is NOT discarded — line 134
checks only the length, closure is never tested, and the Polygon
constructor closes the ring implicitly — so it participates in the union
and the relation produces a Polygon (here with uSingle, the behaviour of
the library union on a single ring). -/
theorem c3_counterexample :
    outer_rings (buildWays [unclosedWay4]) relOuter.members =
      [[(0, 0), (1, 0), (1, 1), (0, 1), (0, 0)]] ∧
    (create_geometry relOuter (buildWays [unclosedWay4]) false uSingle).1 =
      some (Geometry.polygon [[(0, 0), (1, 0), (1, 1), (0, 1), (0, 0)]]) := by
  decide

/-- C3 (amended): an outer way member of a relation is discarded exactly
when its resolved coordinate sequence has fewer than 4 pairs; closure is
not checked — a sequence of at least 4 pairs participates as its
implicitly closed ring. -/
theorem c3_outer_ring_filter (ways : Int → Option RawElement) (m : Member)
    (ms : List Member) (ht : m.type = "way") (hr : m.role = "outer") :
    outer_rings ways (m :: ms) =
      (if 4 ≤ (coordsOf (wayNodes ways m.ref)).length then
        [closeRing (coordsOf (wayNodes ways m.ref))]
      else []) ++ outer_rings ways ms := by
  simp only [outer_rings, List.filterMap_cons, ht, hr]
  split
  · simp_all
  · simp_all

/-- Witness for the amended C3: the unclosed 4-node way member
contributes its implicitly closed ring. -/
theorem c3_witness :
    outer_rings (buildWays [unclosedWay4]) ((⟨"way", 11, "outer"⟩ : Member) :: []) =
      (if 4 ≤ (coordsOf (wayNodes (buildWays [unclosedWay4]) 11)).length then
        [closeRing (coordsOf (wayNodes (buildWays [unclosedWay4]) 11))]
      else []) ++ outer_rings (buildWays [unclosedWay4]) [] :=
  c3_outer_ring_filter (buildWays [unclosedWay4]) ⟨"way", 11, "outer"⟩ []
    rfl rfl

/-- C4 counterexample: a relation all of whose outer members yield no
valid ring produces no geometry AND an empty warning list — contradicting
the claim that a recoverable warning is recorded: the warning on line 150
fires only when the union/repair step raises, and the zero-rings path
(line 140 test false, fall through to line 151) is silent. -/
theorem c4_counterexample :
    create_geometry relNoRings (buildWays []) false uSingle = (none, []) := by
  decide

/-- C4 (amended): a relation whose outer members yield zero valid rings
produces no Feature and processing of the remaining elements continues
unaffected, but no warning is recorded for it. -/
theorem c4_silent_skip (e : RawElement) (rest : List RawElement)
    (u : UnionFn) (ht : e.type = "relation")
    (h0 : outer_rings (buildWays (e :: rest)) e.members = []) :
    create_geometry e (buildWays (e :: rest)) false u = (none, []) ∧
    osm_to_geojson (e :: rest) false u = osm_to_geojson rest false u := by
  have hbw : buildWays (e :: rest) = buildWays rest := by
    funext ref
    simp [buildWays, List.filter_cons, ht]
  have h1 : create_geometry e (buildWays (e :: rest)) false u =
      (none, []) := by
    simp [create_geometry, ht, h0]
  refine ⟨h1, ?_⟩
  rw [hbw] at h1
  simp only [osm_to_geojson, hbw, List.filterMap_cons, h1]
  simp

/-- Witness for the amended C4: the ring-less relation ahead of a closed
way is skipped silently and the way is still assembled. -/
theorem c4_witness :
    create_geometry relNoRings (buildWays [relNoRings, closedWay5]) false
      uZero = (none, []) ∧
    osm_to_geojson [relNoRings, closedWay5] false uZero =
      osm_to_geojson [closedWay5] false uZero :=
  c4_silent_skip relNoRings [closedWay5] uZero rfl (by decide)

/-- C10: an outer way member whose ref is absent from the way index is
handled totally and silently — the lookup yields the empty coordinate
list, the member contributes no ring, and the rings collected from the
remaining members are exactly those collected without it. -/
theorem c10_missing_ref_silent (ways : Int → Option RawElement)
    (ms₁ ms₂ : List Member) (m : Member) (ht : m.type = "way")
    (hr : m.role = "outer") (hm : ways m.ref = none) :
    wayNodes ways m.ref = [] ∧
    outer_rings ways (ms₁ ++ m :: ms₂) = outer_rings ways (ms₁ ++ ms₂) := by
  have h1 : wayNodes ways m.ref = [] := by
    simp [wayNodes, hm]
  refine ⟨h1, ?_⟩
  simp only [outer_rings, List.filterMap_append, List.filterMap_cons,
    ht, hr, h1]
  simp [coordsOf]

/-- Witness for C10: the member with unresolvable ref 99 contributes
nothing alongside a resolvable square-way member. -/
theorem c10_witness :
    wayNodes (buildWays [squareWay]) ghostMember.ref = [] ∧
    outer_rings (buildWays [squareWay])
        ([⟨"way", 51, "outer"⟩] ++ ghostMember :: []) =
      outer_rings (buildWays [squareWay]) ([⟨"way", 51, "outer"⟩] ++ []) :=
  c10_missing_ref_silent (buildWays [squareWay]) [⟨"way", 51, "outer"⟩] []
    ghostMember rfl rfl (by decide)

/-- C7: if any feature of the assembled collection fails the structural
shape check, the whole collection fails validation and the generate
operation returns no result. -/
theorem c7_validation_fail_closed (elements : List RawElement) (s : Bool)
    (u : UnionFn) (f : Feature)
    (hf : f ∈ (osm_to_geojson elements s u).features)
    (hbad : shape_ok f.geometry = false) :
    validate_geojson (osm_to_geojson elements s u) = false ∧
    generate_result elements s u = none := by
  have hv : validate_geojson (osm_to_geojson elements s u) = false := by
    simp only [validate_geojson, List.all_eq_false]
    exact ⟨f, hf, by simp [hbad]⟩
  exact ⟨hv, by simp [generate_result, hv]⟩

/-- Witness for C7: a backend reporting a degenerate three-position
exterior makes the relation feature fail the shape check, and the whole
two-feature collection is rejected. -/
theorem c7_witness :
    validate_geojson (osm_to_geojson [squareWay, relSquare] false uBad) =
      false ∧
    generate_result [squareWay, relSquare] false uBad = none :=
  c7_validation_fail_closed [squareWay, relSquare] false uBad
    (mkFeature relSquare (Geometry.polygon [[(0, 0), (1, 1), (0, 0)]]))
    (by decide) (by decide)

/-- Helper for C8: any geometry produced by create_geometry under a
union backend honouring the ring contract has only valid polygon
rings. -/
theorem create_geometry_rings_valid (e : RawElement)
    (ways : Int → Option RawElement) (s : Bool) (u : UnionFn)
    (hu : ValidUnionFn u) (g : Geometry)
    (hg : (create_geometry e ways s u).1 = some g) :
    RingsValid g := by
  simp only [create_geometry] at hg
  split at hg
  case isTrue hw =>
    split at hg
    case isTrue => exact absurd hg (by simp)
    case isFalse h2 =>
      split at hg
      case isTrue hcond =>
        obtain rfl : Geometry.polygon [coordsOf e.geometry] = g := by
          simpa using hg
        intro r hr
        rw [List.mem_singleton] at hr
        subst hr
        exact ⟨hcond.1, hcond.2⟩
      case isFalse =>
        obtain rfl : Geometry.lineString (coordsOf e.geometry) = g := by
          simpa using hg
        trivial
  case isFalse hw =>
    split at hg
    case isTrue hrel =>
      split at hg
      case isTrue => exact absurd hg (by simp)
      case isFalse hne =>
        split at hg
        next ext heq =>
          obtain rfl : Geometry.polygon [ext] = g := by simpa using hg
          intro r hr
          rw [List.mem_singleton] at hr
          subst hr
          exact (hu _).1 _ heq
        next exts heq =>
          obtain rfl :
              Geometry.multiPolygon (exts.map (fun e => [e])) = g := by
            simpa using hg
          intro rings hrings r hr
          rw [List.mem_map] at hrings
          obtain ⟨x, hx, rfl⟩ := hrings
          rw [List.mem_singleton] at hr
          subst hr
          exact (hu _).2 exts heq _ hx
        next heq => exact absurd hg (by simp)
        next heq => exact absurd hg (by simp)
    case isFalse => exact absurd hg (by simp)

/-- C8: under the ring contract of the external union/repair primitive,
every Polygon or MultiPolygon in the output FeatureCollection satisfies
the ring invariant — each ring has at least 4 coordinate pairs and its
first coordinate equals its last. -/
theorem c8_polygon_ring_invariant (elements : List RawElement) (s : Bool)
    (u : UnionFn) (hu : ValidUnionFn u) (f : Feature)
    (hf : f ∈ (osm_to_geojson elements s u).features) :
    RingsValid f.geometry := by
  simp only [osm_to_geojson, List.mem_filterMap] at hf
  obtain ⟨e, he, hfe⟩ := hf
  split at hfe
  · exact absurd hfe (by simp)
  · split at hfe
    · rename_i g hg
      obtain rfl : mkFeature e g = f := by simpa using hfe
      exact create_geometry_rings_valid e (buildWays elements) s u hu g hg
    · exact absurd hfe (by simp)

/-- Witness for C8: with the fixed-square backend, the Polygon feature
assembled from the closed square way has only valid rings. -/
theorem c8_witness :
    RingsValid (mkFeature squareWay
      (Geometry.polygon [[(0, 0), (1, 0), (1, 1), (0, 1), (0, 0)]])).geometry :=
  c8_polygon_ring_invariant [squareWay, relSquare] false uFixed
    (by
      intro rs
      refine ⟨fun ext h => ?_, fun exts h => absurd h (by simp [uFixed])⟩
      injection h with h
      subst h
      exact ⟨by decide, rfl⟩)
    (mkFeature squareWay
      (Geometry.polygon [[(0, 0), (1, 0), (1, 1), (0, 1), (0, 0)]]))
    (by decide)

end StreetFetcher
